import Mathlib

/-!
Verification development for the `@arivlabs/logger` package (v2), a thin
wrapper around the pino structured-logging library.  The definitions below
are a shallow embedding of `packages/logger/src/index.ts`: the flexible
calling convention (`createLogMethod` / `normalizeLogData`), the redaction
configuration assembled in `createLogger`, the lifecycle state
(`LoggerState`) and the `flush` / `shutdown` / `getBufferMetrics` methods
installed by `wrapLogger`.
-/

namespace ArivLogger

/-- JavaScript-ish runtime values appearing in log data objects.
`vErr` stands for an `Error` instance (carrying its message). -/
inductive Value where
  | vStr (s : String)
  | vNum (n : Int)
  | vBool (b : Bool)
  | vErr (msg : String)
  | vNull
  deriving DecidableEq, Repr

/-- A JavaScript object holding log fields, as an association list of
key/value pairs (keys are unique in objects built by the code, but none of
the theorems below need that). -/
abbrev LogRec := List (String × Value)

/-- Property lookup `obj[k]`: first binding of the key wins. -/
def getV : LogRec → String → Option Value
  | [], _ => none
  | (k', v) :: rest, k => if k' = k then some v else getV rest k

/-- Property update `{ ...obj, k: v }` in JavaScript spread style: an
existing key keeps its position and gets the new value, a fresh key is
appended at the end. -/
def setKey : LogRec → String → Value → LogRec
  | [], k, v => [(k, v)]
  | (k', v') :: rest, k, v =>
    if k' = k then (k, v) :: rest else (k', v') :: setKey rest k v

/-- Removing a key, as in JavaScript rest-destructuring of an object
(which yields the object without the destructured key). -/
def eraseKey : LogRec → String → LogRec
  | [], _ => []
  | (k', v) :: rest, k =>
    if k' = k then eraseKey rest k else (k', v) :: eraseKey rest k

/-- JavaScript truthiness of a value. -/
def truthy : Value → Bool
  | Value.vStr s => s ≠ ""
  | Value.vNum n => n ≠ 0
  | Value.vBool b => b
  | Value.vErr _ => true
  | Value.vNull => false

/-- Truthiness of an optional property (`undefined` is falsy). -/
def truthyOpt : Option Value → Bool
  | some v => truthy v
  | none => false

/-- `v instanceof Error`. -/
def isJsError : Value → Bool
  | Value.vErr _ => true
  | _ => false

theorem getV_setKey_self (r : LogRec) (k : String) (v : Value) :
    getV (setKey r k v) k = some v := by
  induction r with
  | nil => simp [setKey, getV]
  | cons hd tl ih =>
    obtain ⟨k', v'⟩ := hd
    by_cases h : k' = k
    · simp [setKey, h, getV]
    · simp [setKey, h, getV, ih]

theorem getV_setKey_ne (r : LogRec) (k k' : String) (v : Value) (h : k' ≠ k) :
    getV (setKey r k v) k' = getV r k' := by
  induction r with
  | nil => simp [setKey, getV, Ne.symm h]
  | cons hd tl ih =>
    obtain ⟨k₀, v₀⟩ := hd
    by_cases h0 : k₀ = k
    · subst h0
      simp [setKey, getV, Ne.symm h]
    · simp [setKey, h0, getV, ih]

theorem getV_eraseKey_self (r : LogRec) (k : String) :
    getV (eraseKey r k) k = none := by
  induction r with
  | nil => simp [eraseKey, getV]
  | cons hd tl ih =>
    obtain ⟨k', v'⟩ := hd
    by_cases h : k' = k
    · simp [eraseKey, h, ih]
    · simp [eraseKey, h, getV, ih]

theorem getV_eraseKey_ne (r : LogRec) (k k' : String) (h : k' ≠ k) :
    getV (eraseKey r k) k' = getV r k' := by
  induction r with
  | nil => simp [eraseKey]
  | cons hd tl ih =>
    obtain ⟨k₀, v₀⟩ := hd
    by_cases h0 : k₀ = k
    · subst h0
      simp [eraseKey, getV, Ne.symm h, ih]
    · simp [eraseKey, h0, getV, ih]

/-- Embedding of `normalizeLogData` (index.ts): when `data.error` is an
`Error` instance and `data.err` is falsy, move the error value to the `err`
key (dropping `error`); otherwise return the data unchanged. -/
def normalizeLogData (d : LogRec) : LogRec :=
  match getV d "error" with
  | some v =>
    if isJsError v && !truthyOpt (getV d "err") then
      setKey (eraseKey d "error") "err" v
    else d
  | none => d

/-- First positional argument of a flexible log method (`msgOrObj` in
`createLogMethod.logMethod`): a string message or a data object. -/
inductive Arg1 where
  | s (m : String)
  | o (r : LogRec)
  deriving DecidableEq, Repr

/-- Second positional argument (`dataOrMsg`): `undefined`, a string, or a
data object. -/
inductive Arg2 where
  | u
  | s (m : String)
  | o (r : LogRec)
  deriving DecidableEq, Repr

/-- The call the wrapper forwards to the underlying pino level method: an
optional merging object and an optional message string. -/
structure PinoCall where
  mergeObj : Option LogRec
  msg : Option String
  deriving DecidableEq, Repr

/-- Embedding of `createLogMethod.logMethod` (index.ts): dispatch on the
argument shapes and forward to pino, normalizing whichever data object was
supplied. -/
def logMethod : Arg1 → Arg2 → PinoCall
  | Arg1.s m, Arg2.o d => { mergeObj := some (normalizeLogData d), msg := some m }
  | Arg1.s m, _ => { mergeObj := none, msg := some m }
  | Arg1.o d, Arg2.s m => { mergeObj := some (normalizeLogData d), msg := some m }
  | Arg1.o d, _ => { mergeObj := some (normalizeLogData d), msg := none }

/-- Modelled from the spec: the underlying logging library is an external
collaborator reachable through a narrow interface ("write leveled record");
per the spec's output-record shape, the emitted record carries the merging
object's fields plus the message under the `msg` key (the message parameter
taking precedence over any `msg` field of the merging object). -/
def pinoEmit (c : PinoCall) : LogRec :=
  let base := match c.mergeObj with
    | some r => r
    | none => []
  match c.msg with
  | some m => setKey base "msg" (Value.vStr m)
  | none => base

/-- Embedding of the `SonicBoomDestination` data visible to the wrapper:
the `destroyed` flag, the configured `sync` mode and the buffer threshold
`minLength` (0 means no buffering). -/
structure Destination where
  destroyed : Bool
  sync : Bool
  minLength : Nat
  deriving DecidableEq, Repr

/-- Embedding of the internal `LoggerState` (index.ts): the optional
destination, the async and pretty flags, and whether `cleanupHandlers`
was installed. -/
structure LoggerState where
  destination : Option Destination
  isAsync : Bool
  isPrettyMode : Bool
  hasCleanup : Bool
  deriving DecidableEq, Repr

/-- Observable behavior of the destination's methods during a shutdown or
flush, quantified over because the destination is an external stream: which
methods raise synchronously, and when (if ever) the asynchronous callbacks
fire (times in milliseconds from the start of the wait; `none` = never). -/
structure DestBehavior where
  hasFlush : Bool
  flushSyncThrows : Bool
  flushThrows : Bool
  flushCbTime : Option Nat
  endThrows : Bool
  endCbTime : Option Nat
  deriving DecidableEq, Repr

/-- Calls the wrapper makes on its environment during `flush`/`shutdown`. -/
inductive Action where
  | cleanup
  | flushSync
  | asyncFlush
  | endCall
  deriving DecidableEq, Repr

/-- A caught exception: `try ... catch \x7b\x7d` with an empty catch block
turns a raised error into normal completion. -/
def catchDiscard (x : Except Unit Unit) : Except Unit Unit :=
  match x with
  | Except.ok u => Except.ok u
  | Except.error _ => Except.ok ()

/-- The destination's `flushSync()` call: raises when the behavior says so. -/
def destFlushSync (b : DestBehavior) : Except Unit Unit :=
  if b.flushSyncThrows then Except.error () else Except.ok ()

/-- Embedding of `wrapLogger.flush` (index.ts): early return when in pretty
mode, when there is no destination, when not in async mode, or when the
destination's `minLength` is 0; otherwise call `flushSync` inside a
try/catch that discards any error.  The result pairs the destination calls
made with the overall outcome (error = an exception escaped to the caller). -/
def flushRun (s : LoggerState) (b : DestBehavior) : List Action × Except Unit Unit :=
  if s.isPrettyMode then ([], Except.ok ())
  else
    match s.destination with
    | none => ([], Except.ok ())
    | some d =>
      if s.isAsync = false then ([], Except.ok ())
      else if d.minLength = 0 then ([], Except.ok ())
      else ([Action.flushSync], catchDiscard (destFlushSync b))

/-- Outcome of a `shutdown()` call: the calls made, and either a rejection
of the returned promise (`error`) or the time in milliseconds at which the
promise resolves (`ok`). -/
structure ShutdownOutcome where
  calls : List Action
  result : Except Unit Nat
  deriving Repr

/-- Embedding of `wrapLogger.shutdown` (index.ts).  It first invokes
`state.cleanupHandlers` when installed; when a destination exists and the
logger is not in pretty mode it attempts `flushSync` inside a try/catch,
then awaits a promise racing a 5000 ms `setTimeout` against
`dest.flush(cb)` followed by `dest.end(cb)`.  A synchronous raise from
`dest.flush`, or from `dest.end` reached synchronously (flush callback
invoked at time 0, as a destroyed stream does), escapes the promise
executor and rejects the promise; an asynchronous raise leaves the promise
to the timeout; otherwise the promise resolves at the close-completion
time capped by the 5000 ms timeout. -/
def shutdownRun (s : LoggerState) (b : DestBehavior) : ShutdownOutcome :=
  let pre := if s.hasCleanup then [Action.cleanup] else []
  match s.destination with
  | none => { calls := pre, result := Except.ok 0 }
  | some _ =>
    if s.isPrettyMode then { calls := pre, result := Except.ok 0 }
    else
      let pre2 := pre ++ [Action.flushSync]
      if b.hasFlush then
        if b.flushThrows then
          { calls := pre2 ++ [Action.asyncFlush], result := Except.error () }
        else
          match b.flushCbTime with
          | none => { calls := pre2 ++ [Action.asyncFlush], result := Except.ok 5000 }
          | some tf =>
            if b.endThrows then
              if tf = 0 then
                { calls := pre2 ++ [Action.asyncFlush, Action.endCall],
                  result := Except.error () }
              else
                { calls := pre2 ++ [Action.asyncFlush, Action.endCall],
                  result := Except.ok 5000 }
            else
              match b.endCbTime with
              | none =>
                { calls := pre2 ++ [Action.asyncFlush, Action.endCall],
                  result := Except.ok 5000 }
              | some te =>
                { calls := pre2 ++ [Action.asyncFlush, Action.endCall],
                  result := Except.ok (min (tf + te) 5000) }
      else
        if b.endThrows then
          { calls := pre2 ++ [Action.endCall], result := Except.error () }
        else
          match b.endCbTime with
          | none => { calls := pre2 ++ [Action.endCall], result := Except.ok 5000 }
          | some te => { calls := pre2 ++ [Action.endCall], result := Except.ok (min te 5000) }

/-- Embedding of the `BufferMetrics` snapshot. -/
structure BufferMetrics where
  isAsync : Bool
  isPrettyMode : Bool
  metricsAvailable : Bool
  isBackpressured : Option Bool
  isDestroyed : Option Bool
  deriving DecidableEq, Repr

/-- Embedding of `wrapLogger.getBufferMetrics` (index.ts); `needDrain` is
the destination's `writableNeedDrain` stream property (possibly absent,
defaulted to `false` by the code). -/
def getBufferMetrics (s : LoggerState) (needDrain : Option Bool) : BufferMetrics :=
  let base : BufferMetrics :=
    { isAsync := s.isAsync
      isPrettyMode := s.isPrettyMode
      metricsAvailable := !s.isPrettyMode && s.destination.isSome
      isBackpressured := none
      isDestroyed := none }
  match s.destination with
  | some d =>
    if !s.isPrettyMode then
      { base with
        isBackpressured := some (needDrain.getD false)
        isDestroyed := some d.destroyed }
    else base
  | none => base

/-- Process environment variables read by `createLogger`. -/
structure Env where
  nodeEnv : Option String
  envVar : Option String
  logLevel : Option String
  deriving DecidableEq, Repr

/-- Embedding of the `RedactConfig` options interface. -/
structure RedactConfig where
  paths : Option (List String)
  censor : Option String
  remove : Option Bool
  deriving DecidableEq, Repr

/-- Embedding of the `LoggerConfig` options interface. -/
structure LoggerConfig where
  service : String
  environment : Option String
  level : Option String
  pretty : Option Bool
  redact : Option RedactConfig
  enableAsync : Option Bool
  asyncBufferSize : Option Nat
  base : LogRec
  handleExceptions : Bool
  exitOnFatal : Option Bool
  deriving DecidableEq, Repr

/-- JavaScript `a || b || ... || dflt` over strings: the first operand that
is present and non-empty wins. -/
def firstNonEmpty : List (Option String) → String → String
  | [], dflt => dflt
  | o :: rest, dflt =>
    match o with
    | some s => if s = "" then firstNonEmpty rest dflt else s
    | none => firstNonEmpty rest dflt

/-- The `environment` value computed by `createLogger`. -/
def environmentOf (cfg : LoggerConfig) (e : Env) : String :=
  firstNonEmpty [cfg.environment, e.envVar, e.nodeEnv] "development"

/-- The `isDevelopment` flag of `createLogger`. -/
def isDevelopmentOf (cfg : LoggerConfig) (e : Env) : Bool :=
  environmentOf cfg e == "development"

/-- The `isLocal` flag of `createLogger`. -/
def isLocalOf (e : Env) : Bool :=
  e.envVar == some "local"

/-- The `isTest` flag of `createLogger`. -/
def isTestOf (cfg : LoggerConfig) (e : Env) : Bool :=
  environmentOf cfg e == "test" || e.nodeEnv == some "test"

/-- The `shouldPrettyPrint` flag of `createLogger`:
`config.pretty ?? (isDevelopment || isLocal)`. -/
def shouldPrettyPrint (cfg : LoggerConfig) (e : Env) : Bool :=
  cfg.pretty.getD (isDevelopmentOf cfg e || isLocalOf e)

/-- The `useAsync` flag of `createLogger`:
`config.enableAsync ?? (!isDevelopment && !isLocal && !isTest)`. -/
def useAsyncOf (cfg : LoggerConfig) (e : Env) : Bool :=
  cfg.enableAsync.getD (!isDevelopmentOf cfg e && !isLocalOf e && !isTestOf cfg e)

/-- The effective log level string computed by `createLogger`. -/
def levelOf (cfg : LoggerConfig) (e : Env) : String :=
  firstNonEmpty [cfg.level, e.logLevel]
    (if isDevelopmentOf cfg e then "debug" else "info")

/-- Embedding of `DEFAULT_REDACT_PATHS` (index.ts), in source order. -/
def DEFAULT_REDACT_PATHS : List String :=
  [ "password", "secret", "token", "apiKey", "api_key",
    "accessToken", "access_token", "refreshToken", "refresh_token",
    "sessionToken", "session_token", "secretAccessKey", "secret_access_key",
    "privateKey", "private_key",
    "*.password", "*.secret", "*.token", "*.apiKey", "*.api_key",
    "*.accessToken", "*.secretAccessKey", "*.privateKey",
    "req.headers.authorization", "req.headers.cookie",
    "req.headers[\"x-api-key\"]",
    "credentials.accessKeyId", "credentials.secretAccessKey",
    "credentials.sessionToken" ]

/-- The effective redaction options assembled by `createLogger`: default
paths plus the configured extra paths, the configured censor defaulting to
the string REDACTED in brackets, and the configured remove flag defaulting
to `false`. -/
structure RedactOpts where
  paths : List String
  censor : String
  remove : Bool
  deriving DecidableEq, Repr

/-- Embedding of the `redact` option construction in `createLogger`
(`redactPaths = [...DEFAULT_REDACT_PATHS, ...(config.redact?.paths ?? [])]`
with `censor` and `remove` defaults). -/
def effectiveRedact (cfg : LoggerConfig) : RedactOpts :=
  { paths := DEFAULT_REDACT_PATHS ++
      (match cfg.redact with
       | some r => r.paths.getD []
       | none => [])
    censor :=
      match cfg.redact with
      | some r => r.censor.getD "[REDACTED]"
      | none => "[REDACTED]"
    remove :=
      match cfg.redact with
      | some r => r.remove.getD false
      | none => false }

/-- Embedding of the `LoggerState` constructed by `createLogger`: the
pretty branch uses a worker-thread transport (no destination, `isAsync`
forced to `false`), the other branch creates a SonicBoom destination with
`sync: !useAsync` and `minLength` equal to the configured buffer size in
async mode and 0 otherwise; crash handlers (and hence `cleanupHandlers`)
are installed exactly when `config.handleExceptions && !isTest`. -/
def mkLoggerState (cfg : LoggerConfig) (e : Env) : LoggerState :=
  let hasCleanup := cfg.handleExceptions && !isTestOf cfg e
  if shouldPrettyPrint cfg e then
    { destination := none, isAsync := false, isPrettyMode := true,
      hasCleanup := hasCleanup }
  else
    let useAsync := useAsyncOf cfg e
    { destination := some
        { destroyed := false
          sync := !useAsync
          minLength := if useAsync then cfg.asyncBufferSize.getD 4096 else 0 }
      isAsync := useAsync
      isPrettyMode := false
      hasCleanup := hasCleanup }

/-- Embedding of the `RequestContext` interface. -/
structure RequestContext where
  correlationId : String
  userId : Option String
  tenantId : Option String
  domain : Option String
  deriving DecidableEq, Repr

/-- A wrapped logger as produced by `wrapLogger`: the accumulated pino
child bindings of the underlying pino logger, and the shared lifecycle
state captured by the closure. -/
structure WLogger where
  bindings : LogRec
  state : LoggerState
  deriving Repr

/-- Merging extra bindings into the accumulated ones (pino child bindings
override parent bindings of the same key). -/
def addBindings (r : LogRec) (b : LogRec) : LogRec :=
  b.foldl (fun acc kv => setKey acc kv.1 kv.2) r

/-- Bindings contributed by `withContext` (absent optional fields are not
bound). -/
def contextBindings (c : RequestContext) : LogRec :=
  (match c.domain with
   | some d => [("domain", Value.vStr d)]
   | none => []) ++
  [("correlation_id", Value.vStr c.correlationId)] ++
  (match c.userId with
   | some u => [("user_id", Value.vStr u)]
   | none => []) ++
  (match c.tenantId with
   | some t => [("tenant_id", Value.vStr t)]
   | none => [])

/-- A child-logger-forming operation on a wrapped logger. -/
inductive ChildOp where
  | dom (name : String)
  | withCtx (c : RequestContext)
  | childB (b : LogRec)
  deriving Repr

/-- Embedding of `wrapLogger.domain` / `wrapLogger.withContext` /
`wrapLogger.child` (index.ts): each wraps a pino child logger with extra
bindings, passing the same `state` object to `wrapLogger`. -/
def applyChildOp (L : WLogger) : ChildOp → WLogger
  | ChildOp.dom name =>
    { bindings := addBindings L.bindings [("domain", Value.vStr name)], state := L.state }
  | ChildOp.withCtx c =>
    { bindings := addBindings L.bindings (contextBindings c), state := L.state }
  | ChildOp.childB b =>
    { bindings := addBindings L.bindings b, state := L.state }

/-- A sequence of child-forming operations applied left to right. -/
def applyChildOps (L : WLogger) (ops : List ChildOp) : WLogger :=
  ops.foldl applyChildOp L

/-- A lifecycle operation invoked on a wrapped logger after creation. -/
inductive LifeOp where
  | flushOp
  | shutdownOp
  | metricsOp
  | logOp
  deriving DecidableEq, Repr

/-- Effect of a lifecycle operation on the logger state: no operation of
the wrapper reassigns the `isAsync` / `isPrettyMode` / `destination`
fields; `shutdown` ends the destination stream (marking it destroyed) when
one exists and the logger is not in pretty mode. -/
def applyLifeOp (s : LoggerState) : LifeOp → LoggerState
  | LifeOp.shutdownOp =>
    if s.isPrettyMode then s
    else { s with destination := s.destination.map (fun d => { d with destroyed := true }) }
  | _ => s

/-- A sequence of lifecycle operations applied left to right. -/
def applyLifeOps (s : LoggerState) (ops : List LifeOp) : LoggerState :=
  ops.foldl applyLifeOp s

/-- Modelled from the spec: redaction — "replacing or removing specified
fields' values before they are emitted" — is performed by the wrapped
library from the configured paths; a top-level field is redacted exactly
when its key is listed among the configured paths, its value being
replaced by the censor string, or the key dropped when `remove` is set.
(The path-matching engine itself lives in the wrapped library, not in this
package.) -/
def applyRedact (o : RedactOpts) : LogRec → LogRec
  | [] => []
  | (k, v) :: rest =>
    if k ∈ o.paths then
      (if o.remove then applyRedact o rest
       else (k, Value.vStr o.censor) :: applyRedact o rest)
    else (k, v) :: applyRedact o rest

/-- The spec-side condition under which `flush()` is said to do work: async
mode, not pretty, an active destination whose buffer threshold is
non-zero. -/
def flushActiveCond (s : LoggerState) : Bool :=
  s.isAsync && !s.isPrettyMode &&
    (match s.destination with
     | some d => d.minLength != 0
     | none => false)

/-- The time at which the destination signals close completion: the flush
callback time plus the end callback delay (when `dest.flush` exists), or
the end callback delay alone; `none` when either callback never fires. -/
def closeCompletedTime (b : DestBehavior) : Option Nat :=
  if b.hasFlush then
    match b.flushCbTime, b.endCbTime with
    | some tf, some te => some (tf + te)
    | _, _ => none
  else b.endCbTime

/-- The spec-side timeout race: the promise resolves at the earlier of
close completion and the fixed 5000 ms timeout. -/
def raceResolveTime (o : Option Nat) : Nat :=
  match o with
  | some t => min t 5000
  | none => 5000

/-- Whether the destination raises an error synchronously inside the
promise executor during the drain-then-close step: `dest.flush` raising,
or `dest.end` raising when reached synchronously (flush callback invoked
at time 0), or `dest.end` raising when called directly. -/
def raisesDuringClose (b : DestBehavior) : Bool :=
  if b.hasFlush then
    b.flushThrows ||
      (match b.flushCbTime with
       | some 0 => b.endThrows
       | _ => false)
  else b.endThrows

/-- The states and behaviors for which `shutdown()`'s promise rejects:
a non-pretty destination raising synchronously during the close step. -/
def shutdownRejects (s : LoggerState) (b : DestBehavior) : Bool :=
  match s.destination with
  | some _ => !s.isPrettyMode && raisesDuringClose b
  | none => false

/-- The destination calls made during the close step of `shutdown` when
the destination does not raise: an asynchronous flush request, followed by
`end` whenever the flush callback fires (or `end` directly when the
destination has no `flush` method). -/
def shutdownClosePart (b : DestBehavior) : List Action :=
  if b.hasFlush then
    match b.flushCbTime with
    | some _ => [Action.asyncFlush, Action.endCall]
    | none => [Action.asyncFlush]
  else [Action.endCall]

/-!  Concrete configurations and behaviors used by witnesses and
counterexamples. -/

/-- A production-style configuration with all optional fields left unset. -/
def prodConfig : LoggerConfig :=
  { service := "api-gateway", environment := some "production", level := none,
    pretty := none, redact := none, enableAsync := none, asyncBufferSize := none,
    base := [], handleExceptions := false, exitOnFatal := none }

/-- A process environment with no relevant variables set. -/
def emptyEnv : Env :=
  { nodeEnv := none, envVar := none, logLevel := none }

/-- A destination that accepts every call but never invokes any callback. -/
def neverSignals : DestBehavior :=
  { hasFlush := true, flushSyncThrows := false, flushThrows := false,
    flushCbTime := none, endThrows := false, endCbTime := none }

/-- A destroyed destination in the shape SonicBoom exhibits once closed:
`flushSync` raises, `flush` invokes its callback synchronously (with an
error the wrapper ignores), and `end` raises. -/
def destroyedBehavior : DestBehavior :=
  { hasFlush := true, flushSyncThrows := true, flushThrows := false,
    flushCbTime := some 0, endThrows := true, endCbTime := none }

/-- A pretty-mode configuration with crash handlers requested. -/
def prettyConfig : LoggerConfig :=
  { prodConfig with pretty := some true, handleExceptions := true }

/-- A pretty-mode configuration that also asks for async mode. -/
def prettyAsyncConfig : LoggerConfig :=
  { prodConfig with pretty := some true, enableAsync := some true }

/-!  Helper lemmas. -/

theorem applyChildOps_state (ops : List ChildOp) : ∀ L : WLogger,
    (applyChildOps L ops).state = L.state := by
  induction ops with
  | nil => intro L; rfl
  | cons op rest ih =>
    intro L
    have h1 : (applyChildOp L op).state = L.state := by
      cases op <;> rfl
    calc (applyChildOps L (op :: rest)).state
        = (applyChildOps (applyChildOp L op) rest).state := rfl
      _ = (applyChildOp L op).state := ih _
      _ = L.state := h1

theorem applyLifeOps_pretty_fixed (s : LoggerState) (h : s.isPrettyMode = true)
    (ops : List LifeOp) : applyLifeOps s ops = s := by
  induction ops with
  | nil => rfl
  | cons op rest ih =>
    have h1 : applyLifeOp s op = s := by
      cases op <;> simp [applyLifeOp, h]
    calc applyLifeOps s (op :: rest)
        = applyLifeOps (applyLifeOp s op) rest := rfl
      _ = applyLifeOps s rest := by rw [h1]
      _ = s := ih

/-!  Claim theorems. -/

/-- Claim C3: `flush()` performs a synchronous drain (`flushSync` on the
destination) exactly when the logger is in async mode, not in pretty mode,
has a non-null destination, and the destination's `minLength` is non-zero;
in every other state it performs no destination call. -/
theorem flush_drains_exactly_when_active (s : LoggerState) (b : DestBehavior) :
    (flushRun s b).1 =
      (if flushActiveCond s then [Action.flushSync] else []) := by
  obtain ⟨dest, ia, ip, hc⟩ := s
  cases ip <;> cases ia <;> rcases dest with _ | d <;>
    simp [flushRun, flushActiveCond]
  by_cases hm : d.minLength = 0 <;> simp [hm]

/-- Claim C5: every child logger obtained by any sequence of `domain`,
`withContext` and `child` calls shares the root's lifecycle state, so its
`flush`, `shutdown` and `getBufferMetrics` behave exactly as the root's. -/
theorem children_share_lifecycle (L : WLogger) (ops : List ChildOp)
    (b : DestBehavior) (nd : Option Bool) :
    (applyChildOps L ops).state = L.state ∧
    flushRun (applyChildOps L ops).state b = flushRun L.state b ∧
    shutdownRun (applyChildOps L ops).state b = shutdownRun L.state b ∧
    getBufferMetrics (applyChildOps L ops).state nd
      = getBufferMetrics L.state nd := by
  have h := applyChildOps_state ops L
  exact ⟨h, by rw [h], by rw [h], by rw [h]⟩

/-- Claim C9: whenever pretty mode is selected, the created lifecycle state
has `isAsync = false` (even when `enableAsync` is `true`), it has no
destination, `getBufferMetrics` reports `isAsync = false` and
`metricsAvailable = false`, and no sequence of lifecycle operations ever
changes any of this. -/
theorem pretty_mode_forces_sync_flags (cfg : LoggerConfig) (e : Env)
    (ops : List LifeOp) (nd : Option Bool)
    (h : shouldPrettyPrint cfg e = true) :
    (applyLifeOps (mkLoggerState cfg e) ops).isAsync = false ∧
    (applyLifeOps (mkLoggerState cfg e) ops).isPrettyMode = true ∧
    (applyLifeOps (mkLoggerState cfg e) ops).destination = none ∧
    (getBufferMetrics (applyLifeOps (mkLoggerState cfg e) ops) nd).isAsync = false ∧
    (getBufferMetrics (applyLifeOps (mkLoggerState cfg e) ops) nd).metricsAvailable
      = false := by
  have hmk : mkLoggerState cfg e =
      { destination := none, isAsync := false, isPrettyMode := true,
        hasCleanup := cfg.handleExceptions && !isTestOf cfg e } := by
    simp [mkLoggerState, h]
  have hfix := applyLifeOps_pretty_fixed (mkLoggerState cfg e) (by rw [hmk]) ops
  rw [hfix, hmk]
  simp [getBufferMetrics]

/-- Witness for C9 at a concrete pretty configuration that requests async
mode, after a shutdown and a flush. -/
theorem pretty_mode_forces_sync_flags_witness :
    shouldPrettyPrint prettyAsyncConfig emptyEnv = true ∧
    ((applyLifeOps (mkLoggerState prettyAsyncConfig emptyEnv)
        [LifeOp.shutdownOp, LifeOp.flushOp]).isAsync = false ∧
      (applyLifeOps (mkLoggerState prettyAsyncConfig emptyEnv)
        [LifeOp.shutdownOp, LifeOp.flushOp]).isPrettyMode = true ∧
      (applyLifeOps (mkLoggerState prettyAsyncConfig emptyEnv)
        [LifeOp.shutdownOp, LifeOp.flushOp]).destination = none ∧
      (getBufferMetrics (applyLifeOps (mkLoggerState prettyAsyncConfig emptyEnv)
        [LifeOp.shutdownOp, LifeOp.flushOp]) (some true)).isAsync = false ∧
      (getBufferMetrics (applyLifeOps (mkLoggerState prettyAsyncConfig emptyEnv)
        [LifeOp.shutdownOp, LifeOp.flushOp]) (some true)).metricsAvailable = false) :=
  ⟨by decide,
    pretty_mode_forces_sync_flags prettyAsyncConfig emptyEnv
      [LifeOp.shutdownOp, LifeOp.flushOp] (some true) (by decide)⟩

/-- Claim C10: the effective set of redaction paths always contains every
default path; user configuration can only add paths, never disable or
replace the defaults. -/
theorem default_redact_paths_always_present (cfg : LoggerConfig) (p : String)
    (h : p ∈ DEFAULT_REDACT_PATHS) : p ∈ (effectiveRedact cfg).paths := by
  have : (effectiveRedact cfg).paths = DEFAULT_REDACT_PATHS ++
      (match cfg.redact with
       | some r => r.paths.getD []
       | none => []) := rfl
  rw [this]
  exact List.mem_append_left _ h

/-- A configuration adding a custom redaction path. -/
def customRedactOptions : RedactConfig :=
  { paths := some ["customField"], censor := none, remove := none }

/-- A configuration carrying the custom redaction options. -/
def customRedactLoggerConfig : LoggerConfig :=
  { prodConfig with redact := some customRedactOptions }

/-- Witness for C10: the default path for passwords survives a
configuration that adds custom paths. -/
theorem default_redact_paths_always_present_witness :
    "password" ∈ DEFAULT_REDACT_PATHS ∧
    "password" ∈ (effectiveRedact customRedactLoggerConfig).paths :=
  ⟨by decide,
    default_redact_paths_always_present customRedactLoggerConfig
      "password" (by decide)⟩

theorem getV_applyRedact_removed (o : RedactOpts) (r : LogRec) (k : String)
    (hrem : o.remove = true) (hk : k ∈ o.paths) :
    getV (applyRedact o r) k = none := by
  induction r with
  | nil => rfl
  | cons hd tl ih =>
    obtain ⟨k', v⟩ := hd
    by_cases hp : k' ∈ o.paths
    · simp [applyRedact, hp, hrem, ih]
    · have hne : k' ≠ k := by
        intro hh
        exact hp (hh ▸ hk)
      simp [applyRedact, hp, getV, hne, ih]

theorem getV_applyRedact_censored (o : RedactOpts) (r : LogRec) (k : String)
    (hrem : o.remove = false) (hk : k ∈ o.paths)
    (hsome : (getV r k).isSome = true) :
    getV (applyRedact o r) k = some (Value.vStr o.censor) := by
  induction r with
  | nil => simp [getV] at hsome
  | cons hd tl ih =>
    obtain ⟨k', v⟩ := hd
    by_cases he : k' = k
    · subst he
      simp [applyRedact, hk, hrem, getV]
    · by_cases hp : k' ∈ o.paths
      · have := ih (by simpa [getV, he] using hsome)
        simp [applyRedact, hp, hrem, getV, he, this]
      · have := ih (by simpa [getV, he] using hsome)
        simp [applyRedact, hp, getV, he, this]

/-- Claim C8: for every configuration, a record containing a key from the
default sensitive-field set has that key's value replaced in the emitted
output by the configured censor string (default the bracketed REDACTED
marker), or the key removed entirely when `redact.remove` is `true`. -/
theorem default_sensitive_keys_redacted (cfg : LoggerConfig) (r : LogRec)
    (k : String) (hk : k ∈ DEFAULT_REDACT_PATHS) :
    ((effectiveRedact cfg).remove = true →
      getV (applyRedact (effectiveRedact cfg) r) k = none) ∧
    ((effectiveRedact cfg).remove = false → (getV r k).isSome = true →
      getV (applyRedact (effectiveRedact cfg) r) k
        = some (Value.vStr (effectiveRedact cfg).censor)) := by
  have hpaths : (effectiveRedact cfg).paths = DEFAULT_REDACT_PATHS ++
      (match cfg.redact with
       | some r => r.paths.getD []
       | none => []) := rfl
  have hmem : k ∈ (effectiveRedact cfg).paths := by
    rw [hpaths]
    exact List.mem_append_left _ hk
  exact ⟨fun hrem => getV_applyRedact_removed _ r k hrem hmem,
    fun hrem hsome => getV_applyRedact_censored _ r k hrem hmem hsome⟩

/-- Witness for C8: a record with a `password` key, logged under the plain
production configuration, comes out with the default censor string. -/
theorem default_sensitive_keys_redacted_witness :
    "password" ∈ DEFAULT_REDACT_PATHS ∧
    (effectiveRedact prodConfig).remove = false ∧
    (getV [("password", Value.vStr "hunter2")] "password").isSome = true ∧
    getV (applyRedact (effectiveRedact prodConfig)
        [("password", Value.vStr "hunter2")]) "password"
      = some (Value.vStr "[REDACTED]") :=
  ⟨by decide, by decide, by decide,
    (default_sensitive_keys_redacted prodConfig
        [("password", Value.vStr "hunter2")] "password" (by decide)).2
      (by decide) (by decide)⟩

theorem getV_normalize_setKey_msg (d : LogRec) (m : String) (k : String) :
    getV (normalizeLogData (setKey d "msg" (Value.vStr m))) k
      = getV (setKey (normalizeLogData d) "msg" (Value.vStr m)) k := by
  have herr : getV (setKey d "msg" (Value.vStr m)) "error" = getV d "error" :=
    getV_setKey_ne d "msg" "error" _ (by decide)
  have herr2 : getV (setKey d "msg" (Value.vStr m)) "err" = getV d "err" :=
    getV_setKey_ne d "msg" "err" _ (by decide)
  unfold normalizeLogData
  rw [herr, herr2]
  cases hv : getV d "error" with
  | none => rfl
  | some v =>
    dsimp only
    by_cases hc : (isJsError v && !truthyOpt (getV d "err")) = true
    · rw [if_pos hc, if_pos hc]
      by_cases hk1 : k = "msg"
      · subst hk1
        rw [getV_setKey_ne _ _ _ _ (by decide),
          getV_eraseKey_ne _ _ _ (by decide),
          getV_setKey_self, getV_setKey_self]
      · by_cases hk2 : k = "err"
        · subst hk2
          rw [getV_setKey_self, getV_setKey_ne _ _ _ _ (by decide),
            getV_setKey_self]
        · by_cases hk3 : k = "error"
          · subst hk3
            rw [getV_setKey_ne _ _ _ _ (by decide),
              getV_eraseKey_self,
              getV_setKey_ne _ _ _ _ (by decide),
              getV_setKey_ne _ _ _ _ (by decide),
              getV_eraseKey_self]
          · rw [getV_setKey_ne _ _ _ _ hk2,
              getV_eraseKey_ne _ _ _ hk3,
              getV_setKey_ne _ _ _ _ hk1,
              getV_setKey_ne _ _ _ _ hk1,
              getV_setKey_ne _ _ _ _ hk2,
              getV_eraseKey_ne _ _ _ hk3]
    · rw [if_neg hc, if_neg hc]

/-- Claim C6: for every message string and data object, the three calling
shapes — message-first, object-first, and object-with-message-key — emit
records with the same merged fields (the wrapper forwards the same call in
the first two cases, and the message parameter merges the same way as a
`msg` field; the level only selects which pino method is invoked and does
not affect the merged fields). -/
theorem calling_shapes_emit_same_fields (d : LogRec) (m : String) (k : String) :
    getV (pinoEmit (logMethod (Arg1.s m) (Arg2.o d))) k
      = getV (pinoEmit (logMethod (Arg1.o d) (Arg2.s m))) k ∧
    getV (pinoEmit (logMethod (Arg1.o (setKey d "msg" (Value.vStr m))) Arg2.u)) k
      = getV (pinoEmit (logMethod (Arg1.s m) (Arg2.o d))) k := by
  constructor
  · rfl
  · show getV (normalizeLogData (setKey d "msg" (Value.vStr m))) k
      = getV (setKey (normalizeLogData d) "msg" (Value.vStr m)) k
    exact getV_normalize_setKey_msg d m k

/-- Counterexample to C7 as universally stated: a data object whose
`error` field holds a plain string (not an `Error` instance) is emitted
with the value still under `error` and nothing under `err`. -/
theorem error_string_field_not_normalized :
    getV (pinoEmit (logMethod (Arg1.s "x")
        (Arg2.o [("error", Value.vStr "oops")]))) "error"
      = some (Value.vStr "oops") ∧
    getV (pinoEmit (logMethod (Arg1.s "x")
        (Arg2.o [("error", Value.vStr "oops")]))) "err" = none := by
  decide

/-- Claim C7 (amended): for every leveled-log call whose data object's
`error` field holds an `Error` instance while its `err` field is absent or
falsy, the emitted record carries the error under the `err` key and drops
the `error` key; in particular this holds for the scenario
`.error('x', \x7b error: new Error('e') \x7d)`. -/
theorem error_field_normalized_to_err (m : String) (d : LogRec) (v : Value)
    (hv : getV d "error" = some v) (he : isJsError v = true)
    (ht : truthyOpt (getV d "err") = false) :
    getV (pinoEmit (logMethod (Arg1.s m) (Arg2.o d))) "err" = some v ∧
    getV (pinoEmit (logMethod (Arg1.s m) (Arg2.o d))) "error" = none := by
  have hn : normalizeLogData d = setKey (eraseKey d "error") "err" v := by
    unfold normalizeLogData
    rw [hv]
    simp [he, ht]
  show getV (setKey (normalizeLogData d) "msg" (Value.vStr m)) "err" = some v ∧
    getV (setKey (normalizeLogData d) "msg" (Value.vStr m)) "error" = none
  rw [hn]
  constructor
  · rw [getV_setKey_ne _ _ _ _ (by decide), getV_setKey_self]
  · rw [getV_setKey_ne _ _ _ _ (by decide),
      getV_setKey_ne _ _ _ _ (by decide), getV_eraseKey_self]

/-- Witness for C7 (amended) at the spec's scenario input. -/
theorem error_field_normalized_to_err_witness :
    (getV [("error", Value.vErr "e")] "error" = some (Value.vErr "e") ∧
      isJsError (Value.vErr "e") = true ∧
      truthyOpt (getV [("error", Value.vErr "e")] "err") = false) ∧
    (getV (pinoEmit (logMethod (Arg1.s "x")
        (Arg2.o [("error", Value.vErr "e")]))) "err" = some (Value.vErr "e") ∧
      getV (pinoEmit (logMethod (Arg1.s "x")
        (Arg2.o [("error", Value.vErr "e")]))) "error" = none) :=
  ⟨⟨by decide, by decide, by decide⟩,
    error_field_normalized_to_err "x" [("error", Value.vErr "e")]
      (Value.vErr "e") (by decide) (by decide) (by decide)⟩

theorem catchDiscard_eq_ok (x : Except Unit Unit) :
    catchDiscard x = Except.ok () := by
  cases x with
  | ok u => cases u; rfl
  | error e => rfl

theorem raceResolveTime_le (o : Option Nat) : raceResolveTime o ≤ 5000 := by
  cases o with
  | none => exact le_refl 5000
  | some t => exact Nat.min_le_right t 5000

/-- Claim C1 (amended): `flush()` never throws in any logger state, and
`shutdown()` never throws synchronously — errors raised by the
destination's `flushSync` during the drain are caught and discarded — but
the promise returned by `shutdown()` rejects exactly when the (non-pretty)
destination raises an error synchronously during the asynchronous
drain-then-close step, because those calls are not wrapped in a
try/catch. -/
theorem flush_safe_shutdown_rejects_iff_close_raises
    (s : LoggerState) (b : DestBehavior) :
    (flushRun s b).2 = Except.ok () ∧
    ((shutdownRun s b).result = Except.error () ↔ shutdownRejects s b = true) := by
  obtain ⟨dest, ia, ip, hc⟩ := s
  constructor
  · cases ip
    · rcases dest with _ | d
      · simp [flushRun]
      · cases ia
        · simp [flushRun]
        · by_cases hm : d.minLength = 0
          · simp [flushRun, hm]
          · simp [flushRun, hm, catchDiscard_eq_ok]
    · simp [flushRun]
  · rcases dest with _ | d
    · simp [shutdownRun, shutdownRejects]
    · cases ip
      · cases hhf : b.hasFlush
        · cases het : b.endThrows
          · rcases hte : b.endCbTime with _ | te <;>
              simp [shutdownRun, shutdownRejects, raisesDuringClose, hhf, het, hte]
          · simp [shutdownRun, shutdownRejects, raisesDuringClose, hhf, het]
        · cases hft : b.flushThrows
          · rcases hcb : b.flushCbTime with _ | tf
            · simp [shutdownRun, shutdownRejects, raisesDuringClose, hhf, hft, hcb]
            · cases het : b.endThrows
              · rcases hte : b.endCbTime with _ | te <;>
                  simp [shutdownRun, shutdownRejects, raisesDuringClose,
                    hhf, hft, hcb, het, hte] <;>
                  cases tf <;> rfl
              · cases tf with
                | zero =>
                  simp [shutdownRun, shutdownRejects, raisesDuringClose,
                    hhf, hft, hcb, het]
                | succ n =>
                  simp [shutdownRun, shutdownRejects, raisesDuringClose,
                    hhf, hft, hcb, het]
          · simp [shutdownRun, shutdownRejects, raisesDuringClose, hhf, hft]
      · simp [shutdownRun, shutdownRejects]

/-- A logger in production mode whose destination was destroyed by an
earlier shutdown. -/
def destroyedLoggerState : LoggerState :=
  applyLifeOps (mkLoggerState prodConfig emptyEnv) [LifeOp.shutdownOp]

/-- Counterexample to C1 as stated: against a destroyed destination (one
whose flush callback fires synchronously with an error and whose `end`
raises, as a closed SonicBoom stream does), the promise returned by
`shutdown()` rejects — the error raised during close is not discarded. -/
theorem shutdown_promise_can_reject :
    (shutdownRun destroyedLoggerState destroyedBehavior).result
      = Except.error () := rfl

/-- Claim C2: for a logger with a non-pretty destination whose methods
return normally, `shutdown()` resolves at the earlier of the
close-completed callback and the fixed 5000 ms timeout — in particular
within 5 seconds even when neither callback is ever invoked. -/
theorem shutdown_resolves_by_timeout_race (s : LoggerState) (b : DestBehavior)
    (hd : s.destination.isSome = true) (hp : s.isPrettyMode = false)
    (hf : b.flushThrows = false) (he : b.endThrows = false) :
    (shutdownRun s b).result
      = Except.ok (raceResolveTime (closeCompletedTime b)) ∧
    raceResolveTime (closeCompletedTime b) ≤ 5000 := by
  obtain ⟨dest, ia, ip, hc⟩ := s
  rcases dest with _ | d
  · simp at hd
  · refine ⟨?_, raceResolveTime_le _⟩
    have hip : ip = false := hp
    subst hip
    cases hhf : b.hasFlush
    · rcases hte : b.endCbTime with _ | te <;>
        simp [shutdownRun, raceResolveTime, closeCompletedTime, hhf, he, hte]
    · rcases hcb : b.flushCbTime with _ | tf
      · simp [shutdownRun, raceResolveTime, closeCompletedTime, hhf, hf, hcb]
      · rcases hte : b.endCbTime with _ | te <;>
          simp [shutdownRun, raceResolveTime, closeCompletedTime,
            hhf, hf, hcb, he, hte]

/-- Witness for C2: the production logger against a destination that never
signals completion; shutdown resolves exactly at the 5000 ms timeout. -/
theorem shutdown_resolves_by_timeout_race_witness :
    (mkLoggerState prodConfig emptyEnv).destination.isSome = true ∧
    (mkLoggerState prodConfig emptyEnv).isPrettyMode = false ∧
    neverSignals.flushThrows = false ∧
    neverSignals.endThrows = false ∧
    ((shutdownRun (mkLoggerState prodConfig emptyEnv) neverSignals).result
        = Except.ok (raceResolveTime (closeCompletedTime neverSignals)) ∧
      raceResolveTime (closeCompletedTime neverSignals) ≤ 5000) :=
  ⟨by decide, by decide, rfl, rfl,
    shutdown_resolves_by_timeout_race (mkLoggerState prodConfig emptyEnv)
      neverSignals (by decide) (by decide) rfl rfl⟩

/-- Claim C4 (amended): for every logger holding a (non-pretty)
destination whose methods return normally, `shutdown()` performs, in
order, the deregistration of any crash handlers it had installed, an
attempted synchronous drain, and the asynchronous drain-then-close
request, and its promise resolves within the fixed 5000 ms bound
regardless of completion. -/
theorem shutdown_sequence_and_bound (s : LoggerState) (b : DestBehavior)
    (hd : s.destination.isSome = true) (hp : s.isPrettyMode = false)
    (hr : raisesDuringClose b = false) :
    (shutdownRun s b).calls =
      (if s.hasCleanup then [Action.cleanup] else [])
        ++ [Action.flushSync] ++ shutdownClosePart b ∧
    ∃ t, (shutdownRun s b).result = Except.ok t ∧ t ≤ 5000 := by
  obtain ⟨dest, ia, ip, hc⟩ := s
  rcases dest with _ | d
  · simp at hd
  · have hip : ip = false := hp
    subst hip
    cases hhf : b.hasFlush
    · have het : b.endThrows = false := by
        simpa [raisesDuringClose, hhf] using hr
      rcases hte : b.endCbTime with _ | te
      · exact ⟨by simp [shutdownRun, shutdownClosePart, hhf, het, hte],
          5000, by simp [shutdownRun, hhf, het, hte], le_refl 5000⟩
      · exact ⟨by simp [shutdownRun, shutdownClosePart, hhf, het, hte],
          min te 5000, by simp [shutdownRun, hhf, het, hte],
          Nat.min_le_right te 5000⟩
    · have hft : b.flushThrows = false := by
        cases hft : b.flushThrows
        · rfl
        · exfalso
          simp [raisesDuringClose, hhf, hft] at hr
      rcases hcb : b.flushCbTime with _ | tf
      · exact ⟨by simp [shutdownRun, shutdownClosePart, hhf, hft, hcb],
          5000, by simp [shutdownRun, hhf, hft, hcb], le_refl 5000⟩
      · cases het : b.endThrows
        · rcases hte : b.endCbTime with _ | te
          · exact ⟨by simp [shutdownRun, shutdownClosePart, hhf, hft, hcb, het, hte],
              5000, by simp [shutdownRun, hhf, hft, hcb, het, hte], le_refl 5000⟩
          · exact ⟨by simp [shutdownRun, shutdownClosePart, hhf, hft, hcb, het, hte],
              min (tf + te) 5000,
              by simp [shutdownRun, hhf, hft, hcb, het, hte],
              Nat.min_le_right (tf + te) 5000⟩
        · cases tf with
          | zero =>
            exfalso
            simp [raisesDuringClose, hhf, hft, hcb, het] at hr
          | succ n =>
            exact ⟨by simp [shutdownRun, shutdownClosePart, hhf, hft, hcb, het],
              5000, by simp [shutdownRun, hhf, hft, hcb, het], le_refl 5000⟩

/-- Witness for C4 (amended) at the production logger and a destination
that never signals completion. -/
theorem shutdown_sequence_and_bound_witness :
    (mkLoggerState prodConfig emptyEnv).destination.isSome = true ∧
    (mkLoggerState prodConfig emptyEnv).isPrettyMode = false ∧
    raisesDuringClose neverSignals = false ∧
    ((shutdownRun (mkLoggerState prodConfig emptyEnv) neverSignals).calls =
        (if (mkLoggerState prodConfig emptyEnv).hasCleanup then [Action.cleanup] else [])
          ++ [Action.flushSync] ++ shutdownClosePart neverSignals ∧
      ∃ t, (shutdownRun (mkLoggerState prodConfig emptyEnv) neverSignals).result
          = Except.ok t ∧ t ≤ 5000) :=
  ⟨by decide, by decide, by decide,
    shutdown_sequence_and_bound (mkLoggerState prodConfig emptyEnv) neverSignals
      (by decide) (by decide) (by decide)⟩

/-- The lifecycle state of a logger created in pretty mode with crash
handlers installed. -/
def prettyLoggerState : LoggerState := mkLoggerState prettyConfig emptyEnv

/-- Counterexample to C4 as stated: for a pretty-mode logger, `shutdown()`
only deregisters the crash handlers; no synchronous drain is ever
attempted and no close request is made. -/
theorem pretty_shutdown_performs_no_drain :
    (shutdownRun prettyLoggerState neverSignals).calls = [Action.cleanup] ∧
    Action.flushSync ∉ (shutdownRun prettyLoggerState neverSignals).calls := by
  decide

end ArivLogger
